import Mathlib

/-!
Verification of the cheater-detection notebook (logistic item-response model
with a single-cheater softmax mixture, fitted by gradient descent on a
regularized negative log-likelihood).

The numeric tensor code is embedded over the exact reals: tensors of shape
`(n, m)` become functions `Fin n → Fin m → ℝ`, `torch.sigmoid`, `F.softmax`
and `Bernoulli.log_prob` become their exact-real counterparts.  The
`Bernoulli(probs=p).log_prob(x)` call is modelled including the clamp that
the library applies when converting probabilities to logits: probabilities
are clamped to `[eps, 1 - eps]` with `eps` the float32 machine epsilon
`2 ^ (-23)` before any logarithm is taken.
-/

namespace Cheater

/-! ### Configuration constants of `fit`

`def fit(model, answers, epochs, alpha=1.0, see_progress=True)` builds
`torch.optim.Adam(model.parameters(), lr=0.01)`: `epochs` and `alpha` are
arguments of `fit`, the learning rate is a literal inside its body.  Every
call site of `fit` in the notebook passes `epochs=1000, alpha=1e-2`. -/

/-- Learning rate of the Adam optimizer, a literal `0.01` inside the body of
`fit`; it is not a parameter of `fit`. -/
def fit_learning_rate : ℚ := 1 / 100

/-- Default value of the `alpha` keyword argument in the signature of `fit`
(`alpha=1.0`). -/
def fit_alpha_default : ℚ := 1

/-- Value of `alpha` passed by every call site of `fit` in the notebook
(`alpha=1e-2`). -/
def fit_call_alpha : ℚ := 1 / 100

/-- Value of `epochs` passed by every call site of `fit` in the notebook. -/
def fit_call_epochs : ℕ := 1000

/-! ### Shape semantics of `fit`

`fit` performs no explicit shape check: `distribution.log_prob(answers)`
delegates to the tensor library, which accepts the probability tensor of
shape `(n, m)` against an answers tensor of shape `(rows, cols)` whenever
the two shapes are broadcast-compatible, and raises otherwise. -/

/-- Two tensor dimensions are broadcast-compatible when they are equal or one
of them is `1`. -/
def broadcastDim (a b : ℕ) : Prop := a = b ∨ a = 1 ∨ b = 1

instance (a b : ℕ) : Decidable (broadcastDim a b) := by
  unfold broadcastDim; infer_instance

/-- `fit` on a model with parameter shapes `(n, m)` and an answers matrix of
shape `(rows, cols)` proceeds without error exactly when the per-cell
`log_prob` evaluation can broadcast the two shapes. -/
def fitProceeds (n m rows cols : ℕ) : Prop :=
  broadcastDim n rows ∧ broadcastDim m cols

instance (n m rows cols : ℕ) : Decidable (fitProceeds n m rows cols) := by
  unfold fitProceeds; infer_instance

noncomputable section

/-- Logistic sigmoid, `torch.sigmoid`. -/
def sigmoid (x : ℝ) : ℝ := 1 / (1 + Real.exp (-x))

/-- Probability matrix of `ResponseModel.forward`:
`torch.sigmoid(self.skill[:, None] - self.difficulty[None, :])`. -/
def responseModelProbs {n m : ℕ} (skill : Fin n → ℝ) (difficulty : Fin m → ℝ)
    (i : Fin n) (j : Fin m) : ℝ :=
  sigmoid (skill i - difficulty j)

/-- Softmax of a vector along its only dimension, `F.softmax`. -/
def softmax {n : ℕ} (x : Fin n → ℝ) (i : Fin n) : ℝ :=
  Real.exp (x i) / ∑ j, Real.exp (x j)

/-- Probability matrix of `ResponseModelWithCheater.forward`:
`cheater_prob * answer_cheat + (1 - cheater_prob) * answer_no_cheat` with
`cheater_prob = F.softmax(self.cheater_logits)[:, None]`,
`answer_no_cheat = sigmoid(skill - difficulty)` and
`answer_cheat = 0.5 * sigmoid(skill - difficulty) + 0.5 * 1`. -/
def responseModelWithCheaterProbs {n m : ℕ} (skill : Fin n → ℝ)
    (difficulty : Fin m → ℝ) (cheater_logits : Fin n → ℝ)
    (i : Fin n) (j : Fin m) : ℝ :=
  softmax cheater_logits i * (0.5 * sigmoid (skill i - difficulty j) + 0.5 * 1)
    + (1 - softmax cheater_logits i) * sigmoid (skill i - difficulty j)

/-- Float32 machine epsilon `2 ^ (-23)`, the clamp margin that the tensor
library uses when converting a float32 probability tensor to logits. -/
def torchEps : ℝ := 1 / 2 ^ 23

/-- Clamp of a probability into `[torchEps, 1 - torchEps]`, as performed by
`probs.clamp(min=eps, max=1-eps)` inside the probability-to-logit
conversion of the Bernoulli distribution. -/
def clampProb (p : ℝ) : ℝ := min (max p torchEps) (1 - torchEps)

/-- Exact-real model of `Bernoulli(probs=p).log_prob(x)`: the probability is
clamped to `[torchEps, 1 - torchEps]`, then the log-probability
`x * log p + (1 - x) * log (1 - p)` of the clamped value is returned. -/
def bernoulliLogProb (p x : ℝ) : ℝ :=
  x * Real.log (clampProb p) + (1 - x) * Real.log (1 - clampProb p)

/-- Mean of an `n × m` matrix, `tensor.mean()`. -/
def meanMatrix {n m : ℕ} (f : Fin n → Fin m → ℝ) : ℝ :=
  (∑ i, ∑ j, f i j) / (n * m)

/-- Mean of a vector, `tensor.mean()`. -/
def meanVec {m : ℕ} (d : Fin m → ℝ) : ℝ := (∑ j, d j) / m

/-- Loss evaluated at each epoch of `fit`:
`-distribution.log_prob(answers).mean() + alpha*torch.pow(model.difficulty.mean(), 2)`,
where `distribution` is the Bernoulli distribution over the model's current
probability matrix `probs`. -/
def fitLoss {n m : ℕ} (probs answers : Fin n → Fin m → ℝ) (alpha : ℝ)
    (difficulty : Fin m → ℝ) : ℝ :=
  -meanMatrix (fun i j => bernoulliLogProb (probs i j) (answers i j))
    + alpha * meanVec difficulty ^ 2

open Classical in
/-- Indices of a vector at which it attains its maximum. -/
def maximizers {n : ℕ} (v : Fin n → ℝ) : Finset (Fin n) :=
  Finset.univ.filter fun i => ∀ j, v j ≤ v i

open Classical in
/-- Indices of a vector at which it attains its minimum. -/
def minimizers {n : ℕ} (v : Fin n → ℝ) : Finset (Fin n) :=
  Finset.univ.filter fun i => ∀ j, v i ≤ v j

theorem maximizers_nonempty {n : ℕ} [NeZero n] (v : Fin n → ℝ) :
    (maximizers v).Nonempty := by
  obtain ⟨b, -, hb⟩ := Finset.exists_max_image Finset.univ v
    ⟨⟨0, Nat.pos_of_ne_zero (NeZero.ne n)⟩, Finset.mem_univ _⟩
  exact ⟨b, Finset.mem_filter.mpr
    ⟨Finset.mem_univ _, fun j => hb j (Finset.mem_univ _)⟩⟩

theorem minimizers_nonempty {n : ℕ} [NeZero n] (v : Fin n → ℝ) :
    (minimizers v).Nonempty := by
  obtain ⟨b, -, hb⟩ := Finset.exists_min_image Finset.univ v
    ⟨⟨0, Nat.pos_of_ne_zero (NeZero.ne n)⟩, Finset.mem_univ _⟩
  exact ⟨b, Finset.mem_filter.mpr
    ⟨Finset.mem_univ _, fun j => hb j (Finset.mem_univ _)⟩⟩

/-- First index attaining the maximum of a vector, `numpy.argmax`. -/
def argmaxIdx {n : ℕ} [NeZero n] (v : Fin n → ℝ) : Fin n :=
  (maximizers v).min' (maximizers_nonempty v)

/-- First index attaining the minimum of a vector, `numpy.argmin`. -/
def argminIdx {n : ℕ} [NeZero n] (v : Fin n → ℝ) : Fin n :=
  (minimizers v).min' (minimizers_nonempty v)

/-- Per-respondent total log-probability of the observed answer row under the
fitted baseline model: `model().log_prob(answers).sum(axis=1)`. -/
def rowLogProb {n m : ℕ} (skill : Fin n → ℝ) (difficulty : Fin m → ℝ)
    (answers : Fin n → Fin m → ℝ) (i : Fin n) : ℝ :=
  ∑ j, bernoulliLogProb (responseModelProbs skill difficulty i j) (answers i j)

/-- Baseline anomaly scorer:
`predicted_cheater = model().log_prob(answers).sum(axis=1).argmin()`. -/
def predictedCheaterBaseline {n m : ℕ} [NeZero n] (skill : Fin n → ℝ)
    (difficulty : Fin m → ℝ) (answers : Fin n → Fin m → ℝ) : Fin n :=
  argminIdx (rowLogProb skill difficulty answers)

/-- Mixture anomaly scorer:
`predicted_cheater = F.softmax(model.cheater_logits).argmax()`.  It is a
function of the fitted cheater logits alone; the response matrix is not an
argument. -/
def predictedCheaterMixture {n : ℕ} [NeZero n] (cheater_logits : Fin n → ℝ) :
    Fin n :=
  argmaxIdx (softmax cheater_logits)

/-! ### Definitions taken from the specification's wording (for C1) -/

/-- Spec-side `cheater_prob`: the softmax of the cheater logits. -/
def spec_cheater_prob {n : ℕ} (cheater_logits : Fin n → ℝ) (i : Fin n) : ℝ :=
  softmax cheater_logits i

/-- Spec-side `p_no_cheat(i,j) = sigmoid(skill[i]-difficulty[j])`. -/
def spec_p_no_cheat {n m : ℕ} (skill : Fin n → ℝ) (difficulty : Fin m → ℝ)
    (i : Fin n) (j : Fin m) : ℝ :=
  sigmoid (skill i - difficulty j)

/-- Spec-side `p_cheat(i,j) = 0.5 * sigmoid(skill[i]-difficulty[j]) + 0.5`. -/
def spec_p_cheat {n m : ℕ} (skill : Fin n → ℝ) (difficulty : Fin m → ℝ)
    (i : Fin n) (j : Fin m) : ℝ :=
  0.5 * sigmoid (skill i - difficulty j) + 0.5

end

/-! ### Theorems -/

theorem torchEps_pos : 0 < torchEps := by norm_num [torchEps]

theorem le_clampProb (p : ℝ) : torchEps ≤ clampProb p :=
  le_min (le_max_right _ _) (by norm_num [torchEps])

theorem clampProb_le (p : ℝ) : clampProb p ≤ 1 - torchEps := min_le_right _ _

theorem log_clampProb_bounds (p : ℝ) :
    Real.log torchEps ≤ Real.log (clampProb p) ∧ Real.log (clampProb p) ≤ 0 :=
  ⟨Real.log_le_log torchEps_pos (le_clampProb p),
   Real.log_nonpos (le_trans torchEps_pos.le (le_clampProb p))
     (le_trans (clampProb_le p) (by norm_num [torchEps]))⟩

theorem log_one_sub_clampProb_bounds (p : ℝ) :
    Real.log torchEps ≤ Real.log (1 - clampProb p) ∧
    Real.log (1 - clampProb p) ≤ 0 := by
  have h1 : torchEps ≤ 1 - clampProb p := by
    have := clampProb_le p; linarith
  have h2 : 1 - clampProb p ≤ 1 := by
    have := le_clampProb p; have := torchEps_pos; linarith
  exact ⟨Real.log_le_log torchEps_pos h1,
    Real.log_nonpos (le_trans torchEps_pos.le h1) h2⟩

theorem bernoulliLogProb_bounds (p x : ℝ) (hx : x = 0 ∨ x = 1) :
    Real.log torchEps ≤ bernoulliLogProb p x ∧ bernoulliLogProb p x ≤ 0 := by
  rcases hx with h | h <;> subst h <;>
    simp only [bernoulliLogProb, zero_mul, one_mul, zero_add, add_zero,
      sub_zero, sub_self, mul_zero]
  · exact log_one_sub_clampProb_bounds p
  · exact log_clampProb_bounds p

theorem meanMatrix_bounds {n m : ℕ} (f : Fin n → Fin m → ℝ) (L : ℝ)
    (hn : 0 < n) (hm : 0 < m) (hcell : ∀ i j, L ≤ f i j ∧ f i j ≤ 0) :
    L ≤ meanMatrix f ∧ meanMatrix f ≤ 0 := by
  have hnm : (0 : ℝ) < (n : ℝ) * (m : ℝ) := by
    have := Nat.mul_pos hn hm
    exact_mod_cast this
  have hsum_le : (∑ i, ∑ j, f i j) ≤ 0 := by
    apply Finset.sum_nonpos
    intro i _
    exact Finset.sum_nonpos fun j _ => (hcell i j).2
  have hsum_ge : (n : ℝ) * (m : ℝ) * L ≤ ∑ i, ∑ j, f i j := by
    have hrow : ∀ i : Fin n, (m : ℝ) * L ≤ ∑ j, f i j := by
      intro i
      calc (m : ℝ) * L = ∑ _j : Fin m, L := by
            simp [Finset.sum_const, Finset.card_univ, mul_comm]
        _ ≤ ∑ j, f i j := Finset.sum_le_sum fun j _ => (hcell i j).1
    calc (n : ℝ) * (m : ℝ) * L = ∑ _i : Fin n, (m : ℝ) * L := by
          simp [Finset.sum_const, Finset.card_univ]; ring
      _ ≤ ∑ i, ∑ j, f i j := Finset.sum_le_sum fun i _ => hrow i
  constructor
  · have h1 : L = (n : ℝ) * (m : ℝ) * L / ((n : ℝ) * (m : ℝ)) := by
      rw [mul_div_assoc, mul_comm]
      field_simp
    rw [meanMatrix, h1]
    exact (div_le_div_iff_of_pos_right hnm).mpr hsum_ge
  · rw [meanMatrix, ← zero_div ((n : ℝ) * (m : ℝ))]
    exact (div_le_div_iff_of_pos_right hnm).mpr hsum_le

theorem fitLoss_bounds {n m : ℕ} (probs answers : Fin n → Fin m → ℝ)
    (alpha : ℝ) (difficulty : Fin m → ℝ) (hn : 0 < n) (hm : 0 < m)
    (hbin : ∀ i j, answers i j = 0 ∨ answers i j = 1) :
    alpha * meanVec difficulty ^ 2 ≤ fitLoss probs answers alpha difficulty ∧
    fitLoss probs answers alpha difficulty
      ≤ -Real.log torchEps + alpha * meanVec difficulty ^ 2 := by
  have hmean := meanMatrix_bounds
    (fun i j => bernoulliLogProb (probs i j) (answers i j))
    (Real.log torchEps) hn hm
    (fun i j => bernoulliLogProb_bounds (probs i j) (answers i j) (hbin i j))
  unfold fitLoss
  constructor
  · have := hmean.2; linarith
  · have := hmean.1; linarith

/-- C1: the mixture model's per-cell answer probability equals
`cheater_prob[i] * p_cheat(i,j) + (1 - cheater_prob[i]) * p_no_cheat(i,j)`
with `cheater_prob = softmax(cheater_logits)`,
`p_no_cheat(i,j) = sigmoid(skill[i]-difficulty[j])` and
`p_cheat(i,j) = 0.5 * sigmoid(skill[i]-difficulty[j]) + 0.5`. -/
theorem claim_C1_mixture_probability {n m : ℕ} (skill : Fin n → ℝ)
    (difficulty : Fin m → ℝ) (cheater_logits : Fin n → ℝ)
    (i : Fin n) (j : Fin m) :
    responseModelWithCheaterProbs skill difficulty cheater_logits i j
      = spec_cheater_prob cheater_logits i * spec_p_cheat skill difficulty i j
        + (1 - spec_cheater_prob cheater_logits i)
          * spec_p_no_cheat skill difficulty i j := by
  unfold responseModelWithCheaterProbs spec_cheater_prob spec_p_cheat
    spec_p_no_cheat
  ring

/-- C2: for every response matrix and parameter state (of either model, hence
stated for both the baseline and the mixture probability matrix), the loss
minimized by `fit` equals the negative mean per-cell log-likelihood plus
`alpha` times the square of the mean difficulty. -/
theorem claim_C2_fit_objective {n m : ℕ} (skill : Fin n → ℝ)
    (difficulty : Fin m → ℝ) (cheater_logits : Fin n → ℝ)
    (answers : Fin n → Fin m → ℝ) (alpha : ℝ) :
    fitLoss (responseModelProbs skill difficulty) answers alpha difficulty
      = -((∑ i, ∑ j, bernoulliLogProb (responseModelProbs skill difficulty i j)
            (answers i j)) / (n * m))
        + alpha * ((∑ j, difficulty j) / m) ^ 2 ∧
    fitLoss (responseModelWithCheaterProbs skill difficulty cheater_logits)
        answers alpha difficulty
      = -((∑ i, ∑ j, bernoulliLogProb
            (responseModelWithCheaterProbs skill difficulty cheater_logits i j)
            (answers i j)) / (n * m))
        + alpha * ((∑ j, difficulty j) / m) ^ 2 :=
  ⟨rfl, rfl⟩

/-- C3 counterexample: the claim says `alpha`'s default value is approximately
`1e-2`, but the default in the signature of `fit` is `alpha=1.0`, two orders
of magnitude larger (the value `1e-2` is only what the notebook's call sites
pass explicitly). -/
theorem claim_C3_counterexample :
    fit_alpha_default = 1 ∧ ¬ fit_alpha_default ≤ 1 / 50 := by
  refine ⟨rfl, ?_⟩
  norm_num [fit_alpha_default]

/-- C3 amended: the epoch count and `alpha` are externally settable arguments
of `fit` (with `alpha` defaulting to `1.0` in the signature, while every call
site passes `1e-2` and `epochs=1000`), but the learning rate is hard-coded to
`0.01` inside the body of `fit` and is not settable. -/
theorem claim_C3_amended :
    fit_learning_rate = 1 / 100 ∧ fit_alpha_default = 1 ∧
    fit_call_alpha = 1 / 100 ∧ fit_call_epochs = 1000 :=
  ⟨rfl, rfl, rfl, rfl⟩

/-- C6: adding the same constant to every skill entry and every difficulty
entry leaves every entry of the baseline probability matrix unchanged. -/
theorem claim_C6_translation_invariance {n m : ℕ} (skill : Fin n → ℝ)
    (difficulty : Fin m → ℝ) (C : ℝ) (i : Fin n) (j : Fin m) :
    responseModelProbs (fun k => skill k + C) (fun l => difficulty l + C) i j
      = responseModelProbs skill difficulty i j := by
  unfold responseModelProbs
  have h : skill i + C - (difficulty j + C) = skill i - difficulty j := by ring
  rw [h]

/-- C7: in the mixture model's log-likelihood, every per-cell mixture
probability is clamped into `[ε, 1-ε]` before its logarithm is taken, and the
clamp margin `ε = 2 ^ (-23)` (float32 machine epsilon) is approximately
`1e-7` (within `2e-8` of it). -/
theorem claim_C7_clamped_log {n m : ℕ} (skill : Fin n → ℝ)
    (difficulty : Fin m → ℝ) (cheater_logits : Fin n → ℝ) (x : ℝ)
    (i : Fin n) (j : Fin m) :
    bernoulliLogProb
        (responseModelWithCheaterProbs skill difficulty cheater_logits i j) x
      = x * Real.log (clampProb
            (responseModelWithCheaterProbs skill difficulty cheater_logits i j))
        + (1 - x) * Real.log (1 - clampProb
            (responseModelWithCheaterProbs skill difficulty cheater_logits i j)) ∧
    torchEps ≤ clampProb
        (responseModelWithCheaterProbs skill difficulty cheater_logits i j) ∧
    clampProb (responseModelWithCheaterProbs skill difficulty cheater_logits i j)
        ≤ 1 - torchEps ∧
    |torchEps - 1e-7| < 2e-8 := by
  refine ⟨rfl, le_clampProb _, clampProb_le _, ?_⟩
  rw [abs_lt]
  constructor <;> norm_num [torchEps]

/-- C8: for every binary response matrix (in particular the all-ones matrix
and any all-zero or all-one row or column) and every finite parameter state
of either model, the loss of `fit` is a well-defined real number bounded
between `alpha * mean(difficulty)^2` and `-log ε + alpha * mean(difficulty)^2`;
the log-likelihood computation never takes the logarithm of `0`. -/
theorem claim_C8_finite_loss {n m : ℕ} (skill : Fin n → ℝ)
    (difficulty : Fin m → ℝ) (cheater_logits : Fin n → ℝ)
    (answers : Fin n → Fin m → ℝ) (alpha : ℝ) (hn : 0 < n) (hm : 0 < m)
    (hbin : ∀ i j, answers i j = 0 ∨ answers i j = 1) :
    (alpha * meanVec difficulty ^ 2
        ≤ fitLoss (responseModelProbs skill difficulty) answers alpha difficulty ∧
      fitLoss (responseModelProbs skill difficulty) answers alpha difficulty
        ≤ -Real.log torchEps + alpha * meanVec difficulty ^ 2) ∧
    (alpha * meanVec difficulty ^ 2
        ≤ fitLoss (responseModelWithCheaterProbs skill difficulty cheater_logits)
            answers alpha difficulty ∧
      fitLoss (responseModelWithCheaterProbs skill difficulty cheater_logits)
          answers alpha difficulty
        ≤ -Real.log torchEps + alpha * meanVec difficulty ^ 2) :=
  ⟨fitLoss_bounds _ answers alpha difficulty hn hm hbin,
   fitLoss_bounds _ answers alpha difficulty hn hm hbin⟩

/-- Witness for C8 at the degenerate all-ones `1 × 1` matrix with zero
parameters and `alpha = 1/100`. -/
theorem claim_C8_finite_loss_witness :
    ((1 / 100 : ℝ) * meanVec (fun _ : Fin 1 => (0 : ℝ)) ^ 2
        ≤ fitLoss (responseModelProbs (fun _ : Fin 1 => (0 : ℝ))
            (fun _ : Fin 1 => (0 : ℝ))) (fun _ _ => (1 : ℝ)) (1 / 100)
            (fun _ : Fin 1 => (0 : ℝ)) ∧
      fitLoss (responseModelProbs (fun _ : Fin 1 => (0 : ℝ))
          (fun _ : Fin 1 => (0 : ℝ))) (fun _ _ => (1 : ℝ)) (1 / 100)
          (fun _ : Fin 1 => (0 : ℝ))
        ≤ -Real.log torchEps
          + (1 / 100 : ℝ) * meanVec (fun _ : Fin 1 => (0 : ℝ)) ^ 2) ∧
    ((1 / 100 : ℝ) * meanVec (fun _ : Fin 1 => (0 : ℝ)) ^ 2
        ≤ fitLoss (responseModelWithCheaterProbs (fun _ : Fin 1 => (0 : ℝ))
            (fun _ : Fin 1 => (0 : ℝ)) (fun _ : Fin 1 => (0 : ℝ)))
            (fun _ _ => (1 : ℝ)) (1 / 100) (fun _ : Fin 1 => (0 : ℝ)) ∧
      fitLoss (responseModelWithCheaterProbs (fun _ : Fin 1 => (0 : ℝ))
          (fun _ : Fin 1 => (0 : ℝ)) (fun _ : Fin 1 => (0 : ℝ)))
          (fun _ _ => (1 : ℝ)) (1 / 100) (fun _ : Fin 1 => (0 : ℝ))
        ≤ -Real.log torchEps
          + (1 / 100 : ℝ) * meanVec (fun _ : Fin 1 => (0 : ℝ)) ^ 2) :=
  claim_C8_finite_loss (fun _ => 0) (fun _ => 0) (fun _ => 0) (fun _ _ => 1)
    (1 / 100) (by norm_num) (by norm_num) (fun i j => Or.inr rfl)

/-- C9 counterexample: a model with `2` skill entries against an answers
matrix with a single row has mismatched lengths, yet the shapes broadcast, so
`fit` proceeds without any error instead of failing fast. -/
theorem claim_C9_counterexample :
    ((2 : ℕ) ≠ 1 ∨ (3 : ℕ) ≠ 3) ∧ fitProceeds 2 3 1 3 := by decide

/-- C9 amended: `fit` fails fast only when the shapes are not
broadcast-compatible; whenever a mismatched pair of dimensions both exceed
`1`, the `log_prob` evaluation raises, but a mismatched dimension equal to
`1` broadcasts silently. -/
theorem claim_C9_amended (n m rows cols : ℕ)
    (h : (n ≠ rows ∧ 1 < n ∧ 1 < rows) ∨ (m ≠ cols ∧ 1 < m ∧ 1 < cols)) :
    ¬ fitProceeds n m rows cols := by
  unfold fitProceeds broadcastDim
  rintro ⟨h1, h2⟩
  rcases h with ⟨hne, ha, hb⟩ | ⟨hne, ha, hb⟩ <;> omega

/-- Witness for C9 amended: a model with `2` skill entries against a `3`-row
answers matrix does fail. -/
theorem claim_C9_amended_witness : ¬ fitProceeds 2 5 3 5 :=
  claim_C9_amended 2 5 3 5 (Or.inl ⟨by decide, by decide, by decide⟩)

theorem mem_maximizers {n : ℕ} {v : Fin n → ℝ} {i : Fin n} :
    i ∈ maximizers v ↔ ∀ j, v j ≤ v i := by
  unfold maximizers
  simp

theorem mem_minimizers {n : ℕ} {v : Fin n → ℝ} {i : Fin n} :
    i ∈ minimizers v ↔ ∀ j, v i ≤ v j := by
  unfold minimizers
  simp

theorem argmaxIdx_isMax {n : ℕ} [NeZero n] (v : Fin n → ℝ) (j : Fin n) :
    v j ≤ v (argmaxIdx v) :=
  (mem_maximizers.mp (Finset.min'_mem _ (maximizers_nonempty v))) j

theorem argmaxIdx_le {n : ℕ} [NeZero n] (v : Fin n → ℝ) (k : Fin n)
    (hk : ∀ j, v j ≤ v k) : argmaxIdx v ≤ k :=
  Finset.min'_le _ _ (mem_maximizers.mpr hk)

theorem argminIdx_isMin {n : ℕ} [NeZero n] (v : Fin n → ℝ) (j : Fin n) :
    v (argminIdx v) ≤ v j :=
  (mem_minimizers.mp (Finset.min'_mem _ (minimizers_nonempty v))) j

theorem argminIdx_le {n : ℕ} [NeZero n] (v : Fin n → ℝ) (k : Fin n)
    (hk : ∀ j, v k ≤ v j) : argminIdx v ≤ k :=
  Finset.min'_le _ _ (mem_minimizers.mpr hk)

theorem softmax_le_softmax_iff {n : ℕ} [NeZero n] (x : Fin n → ℝ)
    (i j : Fin n) : softmax x i ≤ softmax x j ↔ x i ≤ x j := by
  haveI : Nonempty (Fin n) := ⟨⟨0, Nat.pos_of_ne_zero (NeZero.ne n)⟩⟩
  have hS : 0 < ∑ k, Real.exp (x k) :=
    Finset.sum_pos (fun k _ => Real.exp_pos (x k)) Finset.univ_nonempty
  unfold softmax
  rw [div_le_div_iff_of_pos_right hS, Real.exp_le_exp]

theorem maximizers_softmax {n : ℕ} [NeZero n] (x : Fin n → ℝ) :
    maximizers (softmax x) = maximizers x := by
  ext i
  simp only [mem_maximizers]
  constructor <;> intro h j
  · exact (softmax_le_softmax_iff x j i).mp (h j)
  · exact (softmax_le_softmax_iff x j i).mpr (h j)

/-- C4: the baseline anomaly scorer computes, for each respondent `i`, the sum
over items `j` of the per-cell log-likelihood of that respondent's answer row,
and returns the (first) index attaining the minimum of these row sums. -/
theorem claim_C4_baseline_scorer {n m : ℕ} [NeZero n] (skill : Fin n → ℝ)
    (difficulty : Fin m → ℝ) (answers : Fin n → Fin m → ℝ) :
    (∀ i, rowLogProb skill difficulty answers i
        = ∑ j, bernoulliLogProb (responseModelProbs skill difficulty i j)
            (answers i j)) ∧
    (∀ i, rowLogProb skill difficulty answers
          (predictedCheaterBaseline skill difficulty answers)
        ≤ rowLogProb skill difficulty answers i) ∧
    (∀ k, (∀ i, rowLogProb skill difficulty answers k
          ≤ rowLogProb skill difficulty answers i)
        → predictedCheaterBaseline skill difficulty answers ≤ k) :=
  ⟨fun _ => rfl,
   fun i => argminIdx_isMin (rowLogProb skill difficulty answers) i,
   fun k hk => argminIdx_le (rowLogProb skill difficulty answers) k hk⟩

/-- Witness for C4 on a concrete `1 × 1` configuration. -/
theorem claim_C4_baseline_scorer_witness :
    (∀ i, rowLogProb (fun _ : Fin 1 => (0 : ℝ)) (fun _ : Fin 1 => (0 : ℝ))
          (fun _ _ => (1 : ℝ)) i
        = ∑ j, bernoulliLogProb (responseModelProbs (fun _ : Fin 1 => (0 : ℝ))
            (fun _ : Fin 1 => (0 : ℝ)) i j) 1) ∧
    (∀ i, rowLogProb (fun _ : Fin 1 => (0 : ℝ)) (fun _ : Fin 1 => (0 : ℝ))
          (fun _ _ => (1 : ℝ))
          (predictedCheaterBaseline (fun _ : Fin 1 => (0 : ℝ))
            (fun _ : Fin 1 => (0 : ℝ)) (fun _ _ => (1 : ℝ)))
        ≤ rowLogProb (fun _ : Fin 1 => (0 : ℝ)) (fun _ : Fin 1 => (0 : ℝ))
            (fun _ _ => (1 : ℝ)) i) ∧
    (∀ k, (∀ i, rowLogProb (fun _ : Fin 1 => (0 : ℝ)) (fun _ : Fin 1 => (0 : ℝ))
          (fun _ _ => (1 : ℝ)) k
        ≤ rowLogProb (fun _ : Fin 1 => (0 : ℝ)) (fun _ : Fin 1 => (0 : ℝ))
            (fun _ _ => (1 : ℝ)) i)
        → predictedCheaterBaseline (fun _ : Fin 1 => (0 : ℝ))
            (fun _ : Fin 1 => (0 : ℝ)) (fun _ _ => (1 : ℝ)) ≤ k) :=
  claim_C4_baseline_scorer (fun _ => 0) (fun _ => 0) (fun _ _ => 1)

/-- C5: the mixture anomaly scorer returns the (first) index attaining the
maximum of `softmax(cheater_logits)`; the definition takes no response matrix
argument, so the prediction is independent of the observed answers. -/
theorem claim_C5_mixture_scorer {n : ℕ} [NeZero n]
    (cheater_logits : Fin n → ℝ) :
    (∀ i, softmax cheater_logits i
        ≤ softmax cheater_logits (predictedCheaterMixture cheater_logits)) ∧
    (∀ k, (∀ i, softmax cheater_logits i ≤ softmax cheater_logits k)
        → predictedCheaterMixture cheater_logits ≤ k) :=
  ⟨fun i => argmaxIdx_isMax (softmax cheater_logits) i,
   fun k hk => argmaxIdx_le (softmax cheater_logits) k hk⟩

/-- Witness for C5 on a concrete logit vector of length `2`. -/
theorem claim_C5_mixture_scorer_witness :
    (∀ i, softmax (![0, 1] : Fin 2 → ℝ) i
        ≤ softmax (![0, 1] : Fin 2 → ℝ)
            (predictedCheaterMixture (![0, 1] : Fin 2 → ℝ))) ∧
    (∀ k, (∀ i, softmax (![0, 1] : Fin 2 → ℝ) i
          ≤ softmax (![0, 1] : Fin 2 → ℝ) k)
        → predictedCheaterMixture (![0, 1] : Fin 2 → ℝ) ≤ k) :=
  claim_C5_mixture_scorer ![0, 1]

/-- C10: taking the argmax of `softmax(cheater_logits)` returns the same index
as taking the argmax of the raw logits, so the mixture scorer's prediction is
independent of the softmax normalization. -/
theorem claim_C10_softmax_preserves_argmax {n : ℕ} [NeZero n]
    (cheater_logits : Fin n → ℝ) :
    predictedCheaterMixture cheater_logits = argmaxIdx cheater_logits := by
  unfold predictedCheaterMixture argmaxIdx
  congr 1
  exact maximizers_softmax cheater_logits

/-- Witness for C10 on a concrete logit vector of length `3`. -/
theorem claim_C10_softmax_preserves_argmax_witness :
    predictedCheaterMixture (![0, 2, 1] : Fin 3 → ℝ)
      = argmaxIdx (![0, 2, 1] : Fin 3 → ℝ) :=
  claim_C10_softmax_preserves_argmax ![0, 2, 1]

end Cheater
